import Mathlib

/-!
Shallow embedding of the Athena client (`python-athena.py`): the polling
`QueryExecution.wait` loop, its error messages, partition-statement
construction, and the tabular result-extraction helpers.  The remote
service is modelled as a function from the poll index to the status it
returns on that poll; exceptions are modelled as `Except` values carrying
the Python exception message.
-/

namespace Athena

/-- `TABLE_NAME = 'athena_table_name'` from the source. -/
def TABLE_NAME : String := "athena_table_name"

/-- One response of `get_query_execution(...)['QueryExecution']['Status']`:
a `State` string and an optional `StateChangeReason`. -/
structure Status where
  State : String
  StateChangeReason : Option String

/-- The execution handle: its remote id and the `waited` memoization flag. -/
structure QueryExecution where
  query_execution_id : String
  waited : Bool

/-- Default reason used by `status.get('StateChangeReason', 'No reason is given.')`. -/
def noReasonMsg : String := "No reason is given."

/-- Message of the exception raised on state `FAILED`. -/
def failedMsg (id reason : String) : String :=
  "Athena execution " ++ id ++ " is failed. " ++ reason

/-- Message of the exception raised on state `CANCELLED`. -/
def canceledMsg (id reason : String) : String :=
  "Athena execution " ++ id ++ " is canceled. " ++ reason

/-- Message of the exception raised when the loop exhausts its iterations. -/
def timeoutMsg (id : String) (timeout : Int) : String :=
  "Athena execution " ++ id ++ " is not processed in " ++ toString timeout ++ " seconds."

/-- Observable outcome of one `wait` call: the returned/raised result, the
final value of the handle's `waited` flag, and how many remote status calls
and one-second sleeps were performed. -/
structure WaitResult where
  outcome : Except String Unit
  waited : Bool
  statusCalls : Nat
  sleeps : Nat

/-- The body of `for i in range(timeout)` in `QueryExecution.wait`.  `i` is
the current loop index, `fuel` the number of iterations left (`timeout - i`
at every real call site), `calls` and `sleeps` the counters so far.  The
`if i != timeout - 1: sleep(1)` guard is kept verbatim on the `Int` value
of the index. -/
def waitLoop (service : Nat → Status) (id : String) (timeout : Int) :
    Nat → Nat → Nat → Nat → WaitResult
  | _, 0, calls, sleeps => ⟨Except.error (timeoutMsg id timeout), false, calls, sleeps⟩
  | i, fuel + 1, calls, sleeps =>
    let status := service i
    let reason := status.StateChangeReason.getD noReasonMsg
    if status.State = "FAILED" then
      ⟨Except.error (failedMsg id reason), false, calls + 1, sleeps⟩
    else if status.State = "CANCELLED" then
      ⟨Except.error (canceledMsg id reason), false, calls + 1, sleeps⟩
    else if status.State = "SUCCEEDED" then
      ⟨Except.ok (), true, calls + 1, sleeps⟩
    else
      waitLoop service id timeout (i + 1) fuel (calls + 1)
        (if (i : Int) ≠ timeout - 1 then sleeps + 1 else sleeps)

/-- `QueryExecution.wait(timeout)`: short-circuit when `waited` is already
set, otherwise run the polling loop; `range(timeout)` yields `timeout.toNat`
iterations. -/
def QueryExecution.wait (qe : QueryExecution) (service : Nat → Status)
    (timeout : Int) : WaitResult :=
  if qe.waited then ⟨Except.ok (), qe.waited, 0, 0⟩
  else waitLoop service qe.query_execution_id timeout 0 timeout.toNat 0 0

/-- A status that matches none of the three terminal branches: the loop
treats it as in-progress. -/
def nonTerminal (s : Status) : Prop :=
  s.State ≠ "FAILED" ∧ s.State ≠ "CANCELLED" ∧ s.State ≠ "SUCCEEDED"

/-- `Partition.__init__(created_at, type)` stores the ordered two-key mapping
`{'created_at': created_at, 'type': type}` (values taken by their string
representation). -/
structure Partition where
  partitions : List (String × String)

/-- The constructor of `Partition`. -/
def Partition.ofFields (created_at ty : String) : Partition :=
  ⟨[("created_at", created_at), ("type", ty)]⟩

/-- `Partition.implode(template, glue)`: `glue.join(template.format(k, v) ...)`
over the mapping in iteration order; the Python format template becomes a
Lean function of the key and value. -/
def Partition.implode (p : Partition) (template : String → String → String)
    (glue : String) : String :=
  String.intercalate glue (p.partitions.map (fun kv => template kv.1 kv.2))

/-- The template string passed by `add_partition`: key, `="`, value, `"`. -/
def kvTemplate (k v : String) : String := k ++ "=\"" ++ v ++ "\""

/-- The statement built by `AthenaClient.add_partition`, from the format
string `alter table ... add partition (...) location "{}/{}";` (the location
is double-quoted in the source). -/
def add_partition_query (s3_bucket : String) (p : Partition) (directory : String) : String :=
  "alter table " ++ TABLE_NAME ++ " add partition (" ++
    p.implode kvTemplate ", " ++ ") location \"" ++ s3_bucket ++ "/" ++ directory ++ "\";"

/-- A single-quote character, for stating what the claimed rendering needs. -/
def singleQuote : String := String.singleton (Char.ofNat 39)

/-- The rendering asserted by the claim: identical to `add_partition_query`
except that the `location` clause is single-quoted.  Stated from the claim's
words, for comparison against the source's definition. -/
def add_partition_query_claimed (s3_bucket : String) (p : Partition) (directory : String) : String :=
  "alter table " ++ TABLE_NAME ++ " add partition (" ++
    p.implode kvTemplate ", " ++ ") location " ++ singleQuote ++
    s3_bucket ++ "/" ++ directory ++ singleQuote ++ ";"

/-- `AthenaClient.execute(query)`: submits the query (the remote
`start_query_execution` transport is a function from the query string to the
returned execution id) and wraps the id in a fresh handle with
`waited = False`. -/
def AthenaClient.execute (start_query_execution : String → String)
    (query : String) : QueryExecution :=
  ⟨start_query_execution query, false⟩

/-- `AthenaClient.add_partition(partition, directory)`: builds the statement
and submits it via `execute`, returning the handle without waiting. -/
def AthenaClient.add_partition (start_query_execution : String → String)
    (s3_bucket : String) (p : Partition) (directory : String) : QueryExecution :=
  AthenaClient.execute start_query_execution (add_partition_query s3_bucket p directory)

/-- One cell of the Athena result set, as consumed by `_execute_select`. -/
structure Cell where
  VarCharValue : String

/-- One row of the Athena result set: `row['Data']`. -/
structure ResultRow where
  Data : List Cell

/-- The extraction step of `AthenaClient._execute_select`: map every cell to
its string value and return `(result[0], result[1:])`; indexing `result[0]`
on an empty result raises, modelled as `none`. -/
def execute_select (rows : List ResultRow) : Option (List String × List (List String)) :=
  let result := rows.map (fun row => row.Data.map Cell.VarCharValue)
  match result with
  | [] => none
  | r0 :: rest => some (r0, rest)

/-- The distinct failure modes of `get_count`: an `IndexError` from list
indexing, a `ValueError` from `int(...)`, or a propagated execution error
from `wait`/`get_result`. -/
inductive CountError where
  | indexError
  | parseError (cell : String)
  | executionError (msg : String)

/-- `AthenaClient.get_count()` applied to the outcome of fetching the result
set: propagate an execution error, run the `_execute_select` extraction, then
evaluate `int(rows[0][0])`; each out-of-range indexing step raises
`IndexError`. -/
def get_count (fetched : Except String (List ResultRow)) : Except CountError Int :=
  match fetched with
  | Except.error m => Except.error (CountError.executionError m)
  | Except.ok resultRows =>
    match execute_select resultRows with
    | none => Except.error CountError.indexError
    | some (_, rows) =>
      match rows with
      | [] => Except.error CountError.indexError
      | r :: _ =>
        match r with
        | [] => Except.error CountError.indexError
        | c :: _ =>
          match c.toInt? with
          | some n => Except.ok n
          | none => Except.error (CountError.parseError c)

end Athena

namespace Athena

/-- Processing an in-progress poll advances the loop: after `m` consecutive
non-terminal polls that all sleep (index below `timeout - 1`), the loop state
has moved `m` steps forward with `m` more calls and `m` more sleeps. -/
theorem waitLoop_skip (service : Nat → Status) (id : String) (timeout : Int)
    (m : Nat) :
    ∀ i fuel calls sleeps, m < fuel →
      (∀ j, j < m → nonTerminal (service (i + j))) →
      ((i : Int) + m ≤ timeout - 1) →
      waitLoop service id timeout i fuel calls sleeps =
        waitLoop service id timeout (i + m) (fuel - m) (calls + m) (sleeps + m) := by
  induction m with
  | zero => intro i fuel calls sleeps _ _ _; simp
  | succ m ih =>
    intro i fuel calls sleeps hm hnt hb
    obtain ⟨fuel', rfl⟩ : ∃ f, fuel = f + 1 := ⟨fuel - 1, by omega⟩
    obtain ⟨hf, hc, hs⟩ := by simpa using hnt 0 (Nat.succ_pos m)
    have hi : ((i : Int) ≠ timeout - 1) := by push_cast at hb; omega
    rw [waitLoop, if_neg hf, if_neg hc, if_neg hs, if_pos hi]
    have hnt' : ∀ j, j < m → nonTerminal (service (i + 1 + j)) := by
      intro j hj
      have e : i + (j + 1) = i + 1 + j := by omega
      exact e ▸ hnt (j + 1) (by omega)
    have hb' : (((i + 1 : Nat) : Int) + m ≤ timeout - 1) := by push_cast at hb ⊢; omega
    rw [ih (i + 1) fuel' (calls + 1) (sleeps + 1) (by omega) hnt' hb']
    have e1 : i + 1 + m = i + (m + 1) := by omega
    have e2 : fuel' - m = fuel' + 1 - (m + 1) := by omega
    have e3 : calls + 1 + m = calls + (m + 1) := by omega
    have e4 : sleeps + 1 + m = sleeps + (m + 1) := by omega
    rw [e1, e2, e3, e4]

end Athena

namespace Athena

/-- If every remaining poll is non-terminal and the fuel matches the
remaining iteration budget, the loop exhausts and raises the timeout
message, adding `fuel` calls and `fuel - 1` sleeps. -/
theorem waitLoop_timeout (service : Nat → Status) (id : String) (timeout : Int) :
    ∀ fuel i calls sleeps, (∀ j, j < fuel → nonTerminal (service (i + j))) →
      ((i : Int) + fuel = timeout) →
      waitLoop service id timeout i fuel calls sleeps =
        ⟨Except.error (timeoutMsg id timeout), false, calls + fuel, sleeps + (fuel - 1)⟩ := by
  intro fuel
  induction fuel with
  | zero => intro i calls sleeps _ _; simp [waitLoop]
  | succ fuel ih =>
    intro i calls sleeps hnt hinv
    obtain ⟨hf, hc, hs⟩ := by simpa using hnt 0 (Nat.succ_pos fuel)
    rw [waitLoop, if_neg hf, if_neg hc, if_neg hs]
    match fuel, ih with
    | 0, _ =>
      have hi : ¬ ((i : Int) ≠ timeout - 1) := by push_cast at hinv ⊢; omega
      rw [if_neg hi, waitLoop]
      simp
    | fuel + 1, ih =>
      have hi : ((i : Int) ≠ timeout - 1) := by push_cast at hinv ⊢; omega
      have hnt' : ∀ j, j < fuel + 1 → nonTerminal (service (i + 1 + j)) := by
        intro j hj
        have e : i + (j + 1) = i + 1 + j := by omega
        exact e ▸ hnt (j + 1) (by omega)
      have hinv' : (((i + 1 : Nat) : Int) + (fuel + 1) = timeout) := by push_cast at hinv ⊢; omega
      rw [if_pos hi, ih (i + 1) (calls + 1) (sleeps + 1) hnt' hinv']
      have e3 : calls + 1 + (fuel + 1) = calls + (fuel + 1 + 1) := by omega
      have e4 : sleeps + 1 + (fuel + 1 - 1) = sleeps + (fuel + 1 + 1 - 1) := by omega
      rw [e3, e4]

/-- The loop never decreases the running count of status calls. -/
theorem waitLoop_statusCalls_le (service : Nat → Status) (id : String) (timeout : Int) :
    ∀ fuel i calls sleeps,
      calls ≤ (waitLoop service id timeout i fuel calls sleeps).statusCalls := by
  intro fuel
  induction fuel with
  | zero => intro i calls sleeps; simp [waitLoop]
  | succ fuel ih =>
    intro i calls sleeps
    simp only [waitLoop]
    split
    · exact Nat.le_succ calls
    · split
      · exact Nat.le_succ calls
      · split
        · exact Nat.le_succ calls
        · exact Nat.le_trans (Nat.le_succ calls) (ih _ _ _)

/-- The final `waited` flag of the loop is `true` exactly when the loop
returned success. -/
theorem waitLoop_waited_iff (service : Nat → Status) (id : String) (timeout : Int) :
    ∀ fuel i calls sleeps,
      ((waitLoop service id timeout i fuel calls sleeps).waited = true ↔
        (waitLoop service id timeout i fuel calls sleeps).outcome = Except.ok ()) := by
  intro fuel
  induction fuel with
  | zero => intro i calls sleeps; simp [waitLoop]
  | succ fuel ih =>
    intro i calls sleeps
    simp only [waitLoop]
    split
    · simp
    · split
      · simp
      · split
        · simp
        · exact ih _ _ _

/-- With at least one iteration of fuel, the loop performs at least one
status call beyond the running count. -/
theorem waitLoop_statusCalls_pos (service : Nat → Status) (id : String) (timeout : Int)
    (i fuel calls sleeps : Nat) (hfuel : 0 < fuel) :
    calls + 1 ≤ (waitLoop service id timeout i fuel calls sleeps).statusCalls := by
  obtain ⟨f, rfl⟩ : ∃ f, fuel = f + 1 := ⟨fuel - 1, by omega⟩
  simp only [waitLoop]
  split
  · exact Nat.le_refl _
  · split
    · exact Nat.le_refl _
    · split
      · exact Nat.le_refl _
      · exact waitLoop_statusCalls_le service id timeout f (i + 1) (calls + 1) _

end Athena

namespace Athena

/-- Claim C1: if the service first reports SUCCEEDED on the k-th poll with
1 ≤ k ≤ t, `wait t` returns success after exactly k status calls and k - 1
sleeps. -/
theorem wait_succeeded_counts (id : String) (service : Nat → Status) (t k : Nat)
    (ht : 1 ≤ t) (hk1 : 1 ≤ k) (hkt : k ≤ t)
    (hprev : ∀ j, j < k - 1 → nonTerminal (service j))
    (hsucc : (service (k - 1)).State = "SUCCEEDED") :
    QueryExecution.wait ⟨id, false⟩ service (t : Int) =
      ⟨Except.ok (), true, k, k - 1⟩ := by
  rw [QueryExecution.wait]
  simp only [Bool.false_eq_true, if_false, Int.toNat_natCast]
  rw [waitLoop_skip service id t (k - 1) 0 t 0 0 (by omega)
    (by simpa using hprev)
    (by push_cast [Nat.cast_sub hk1]; omega)]
  obtain ⟨f, hf⟩ : ∃ f, t - (k - 1) = f + 1 := ⟨t - k, by omega⟩
  rw [hf]
  have h0 : 0 + (k - 1) = k - 1 := by omega
  rw [h0, waitLoop,
    if_neg (by rw [hsucc]; intro h; exact absurd h (by decide)),
    if_neg (by rw [hsucc]; intro h; exact absurd h (by decide)),
    if_pos hsucc]
  have hk : k - 1 + 1 = k := by omega
  rw [hk]

end Athena
namespace Athena

/-- Claim C2: if no poll among the first t is terminal, `wait t` raises the
timeout message naming the execution id and t, after exactly t status calls
(and t - 1 sleeps). -/
theorem wait_timeout_counts (id : String) (service : Nat → Status) (t : Nat)
    (ht : 1 ≤ t)
    (hnt : ∀ j, j < t → nonTerminal (service j)) :
    QueryExecution.wait ⟨id, false⟩ service (t : Int) =
      ⟨Except.error ("Athena execution " ++ id ++ " is not processed in " ++
        toString (t : Int) ++ " seconds."), false, t, t - 1⟩ := by
  rw [QueryExecution.wait]
  simp only [Bool.false_eq_true, if_false, Int.toNat_natCast]
  rw [waitLoop_timeout service id t t 0 0 0 (by simpa using hnt) (by push_cast; omega)]
  simp [timeoutMsg]

/-- Claim C3: a wait that returns success leaves the `waited` flag set, and
once the flag is set every wait call returns success immediately with zero
status calls and zero sleeps. -/
theorem wait_memoized_invariant (qe : QueryExecution) (service : Nat → Status) (t : Int) :
    ((qe.wait service t).outcome = Except.ok () → (qe.wait service t).waited = true) ∧
    (qe.waited = true → qe.wait service t = ⟨Except.ok (), true, 0, 0⟩) := by
  constructor
  · intro h
    by_cases hw : qe.waited = true
    · simp [QueryExecution.wait, hw]
    · simp only [QueryExecution.wait, hw, if_false] at h ⊢
      exact (waitLoop_waited_iff service qe.query_execution_id t t.toNat 0 0 0).2 h
  · intro hw
    simp [QueryExecution.wait, hw]

/-- Claim C4: when the first terminal poll reports FAILED, `wait` raises the
failure message carrying the execution id and the service reason, with the
generic placeholder substituted when the reason field is absent. -/
theorem wait_failed_reason (id : String) (service : Nat → Status) (t k : Nat)
    (hk1 : 1 ≤ k) (hkt : k ≤ t)
    (hprev : ∀ j, j < k - 1 → nonTerminal (service j))
    (hfail : (service (k - 1)).State = "FAILED") :
    QueryExecution.wait ⟨id, false⟩ service (t : Int) =
      ⟨Except.error ("Athena execution " ++ id ++ " is failed. " ++
        ((service (k - 1)).StateChangeReason.getD "No reason is given.")),
        false, k, k - 1⟩ := by
  rw [QueryExecution.wait]
  simp only [Bool.false_eq_true, if_false, Int.toNat_natCast]
  rw [waitLoop_skip service id t (k - 1) 0 t 0 0 (by omega)
    (by simpa using hprev)
    (by push_cast [Nat.cast_sub hk1]; omega)]
  obtain ⟨f, hf⟩ : ∃ f, t - (k - 1) = f + 1 := ⟨t - k, by omega⟩
  rw [hf]
  have h0 : 0 + (k - 1) = k - 1 := by omega
  rw [h0, waitLoop, if_pos hfail]
  have hk : k - 1 + 1 = k := by omega
  rw [hk]
  rfl

/-- Claim C5: when the first terminal poll reports CANCELLED, `wait` raises
the cancellation message carrying the execution id and the reason, and that
message always differs from the failure message built from the same id and
reason. -/
theorem wait_cancelled_distinguished (id : String) (service : Nat → Status) (t k : Nat)
    (hk1 : 1 ≤ k) (hkt : k ≤ t)
    (hprev : ∀ j, j < k - 1 → nonTerminal (service j))
    (hcanc : (service (k - 1)).State = "CANCELLED") :
    (QueryExecution.wait ⟨id, false⟩ service (t : Int) =
      ⟨Except.error (canceledMsg id ((service (k - 1)).StateChangeReason.getD noReasonMsg)),
        false, k, k - 1⟩) ∧
    (∀ reason, canceledMsg id reason ≠ failedMsg id reason) := by
  constructor
  · rw [QueryExecution.wait]
    simp only [Bool.false_eq_true, if_false, Int.toNat_natCast]
    rw [waitLoop_skip service id t (k - 1) 0 t 0 0 (by omega)
      (by simpa using hprev)
      (by push_cast [Nat.cast_sub hk1]; omega)]
    obtain ⟨f, hf⟩ : ∃ f, t - (k - 1) = f + 1 := ⟨t - k, by omega⟩
    rw [hf]
    have h0 : 0 + (k - 1) = k - 1 := by omega
    rw [h0, waitLoop,
      if_neg (by rw [hcanc]; intro h; exact absurd h (by decide)),
      if_pos hcanc]
    have hk : k - 1 + 1 = k := by omega
    rw [hk]
  · intro reason h
    have hlen := congrArg String.length h
    have h1 : " is canceled. ".length = 14 := rfl
    have h2 : " is failed. ".length = 12 := rfl
    simp only [canceledMsg, failedMsg, String.length_append, h1, h2] at hlen
    omega

end Athena
namespace Athena

/-- Claim C6: a wait call that raises an error leaves the `waited` flag
false (both the handle's flag before the call and the flag after it), so a
repeated wait with a positive timeout polls the remote service again,
performing at least one status call. -/
theorem wait_failure_not_memoized (qe : QueryExecution) (service : Nat → Status) (t : Int)
    (m : String) (herr : (qe.wait service t).outcome = Except.error m) :
    (qe.wait service t).waited = false ∧ qe.waited = false ∧
      ∀ (service2 : Nat → Status) (t2 : Int), 1 ≤ t2 →
        1 ≤ (QueryExecution.wait ⟨qe.query_execution_id, (qe.wait service t).waited⟩
          service2 t2).statusCalls := by
  have hqe : qe.waited = false := by
    by_contra hw
    have hw' : qe.waited = true := by
      cases h : qe.waited
      · exact absurd h hw
      · rfl
    simp [QueryExecution.wait, hw'] at herr
  have hres : (qe.wait service t).waited = false := by
    by_contra hw
    have hw' : (qe.wait service t).waited = true := by
      cases h : (qe.wait service t).waited
      · exact absurd h hw
      · rfl
    rw [QueryExecution.wait] at hw' herr
    simp only [hqe, Bool.false_eq_true, if_false] at hw' herr
    rw [(waitLoop_waited_iff service qe.query_execution_id t t.toNat 0 0 0).1 hw'] at herr
    exact Except.noConfusion herr
  refine ⟨hres, hqe, ?_⟩
  intro service2 t2 ht2
  rw [hres, QueryExecution.wait]
  simp only [Bool.false_eq_true, if_false]
  exact waitLoop_statusCalls_pos service2 qe.query_execution_id t2 0 t2.toNat 0 0 (by omega)

/-- Claim C10: with the flag unset and a non-positive timeout, `wait` makes
no status call and no sleep and immediately raises the timeout message
naming the execution id and the timeout value. -/
theorem wait_nonpositive_timeout (qe : QueryExecution) (service : Nat → Status) (t : Int)
    (hw : qe.waited = false) (ht : t ≤ 0) :
    qe.wait service t =
      ⟨Except.error ("Athena execution " ++ qe.query_execution_id ++
        " is not processed in " ++ toString t ++ " seconds."), false, 0, 0⟩ := by
  have h0 : t.toNat = 0 := by omega
  rw [QueryExecution.wait]
  simp only [hw, Bool.false_eq_true, if_false, h0]
  rw [waitLoop]
  rfl

/-- Claim C7 (counterexample): on the spec's own example input the statement
built by `add_partition` differs from the claimed single-quoted rendering;
in fact it contains no single-quote character at all. -/
theorem add_partition_not_single_quoted :
    add_partition_query "bucket" (Partition.ofFields "2024-01-01" "daily") "2024/01/01" ≠
      add_partition_query_claimed "bucket" (Partition.ofFields "2024-01-01" "daily") "2024/01/01" ∧
    ((add_partition_query "bucket" (Partition.ofFields "2024-01-01" "daily") "2024/01/01").toList.contains
      (Char.ofNat 39)) = false := by
  exact ⟨by decide, by decide⟩

/-- Claim C7 (amended): `add_partition` renders the partition pairs as
`key="value"` joined by `, ` in iteration order, appends a double-quoted
`location "<bucket>/<directory>"` clause, and submits the statement,
returning a fresh handle whose `waited` flag is false. -/
theorem add_partition_statement (start_query_execution : String → String)
    (s3_bucket created_at ty directory : String) :
    AthenaClient.add_partition start_query_execution s3_bucket
        (Partition.ofFields created_at ty) directory =
      ⟨start_query_execution
        ("alter table athena_table_name add partition (" ++
          ("created_at=\"" ++ created_at ++ "\"" ++ ", " ++ ("type=\"" ++ ty ++ "\"")) ++
          ") location \"" ++ s3_bucket ++ "/" ++ directory ++ "\";"),
        false⟩ := rfl

/-- Claim C8: the `_execute_select` extraction maps every cell to its string
value, returns the first row as the column names and the rest as the data
rows; a header-only result set yields an empty data-row list. -/
theorem execute_select_header_rows (header : ResultRow) (rest : List ResultRow) :
    execute_select (header :: rest) =
      some (header.Data.map Cell.VarCharValue,
        rest.map (fun row => row.Data.map Cell.VarCharValue)) ∧
    execute_select [header] = some (header.Data.map Cell.VarCharValue, []) := by
  exact ⟨rfl, rfl⟩

/-- Claim C9: on a result set holding only a header row, `get_count` fails
with the index error, which is distinct from both the parse-error and the
execution-error failure modes. -/
theorem get_count_header_only (header : ResultRow) :
    get_count (Except.ok [header]) = Except.error CountError.indexError ∧
    (∀ c, CountError.indexError ≠ CountError.parseError c) ∧
    (∀ m, CountError.indexError ≠ CountError.executionError m) := by
  refine ⟨rfl, ?_, ?_⟩
  · intro c h; exact CountError.noConfusion h
  · intro m h; exact CountError.noConfusion h

end Athena
namespace Athena

/-- Witness for C1: success on the third of five polls gives three status
calls and two sleeps. -/
theorem wait_succeeded_counts_witness :
    QueryExecution.wait ⟨"exec-1", false⟩
      (fun i => if i = 2 then ⟨"SUCCEEDED", none⟩ else ⟨"RUNNING", none⟩) ((5 : Nat) : Int) =
      ⟨Except.ok (), true, 3, 2⟩ := by
  exact wait_succeeded_counts "exec-1"
    (fun i => if i = 2 then ⟨"SUCCEEDED", none⟩ else ⟨"RUNNING", none⟩) 5 3
    (by omega) (by omega) (by omega)
    (fun j hj => by
      have hj2 : j = 0 ∨ j = 1 := by omega
      rcases hj2 with h | h <;> subst h <;> exact ⟨by decide, by decide, by decide⟩)
    (by decide)

/-- Witness for C2: two in-progress polls with timeout 2 give the timeout
message, two status calls and one sleep. -/
theorem wait_timeout_counts_witness :
    QueryExecution.wait ⟨"exec-2", false⟩ (fun _ => ⟨"RUNNING", none⟩) ((2 : Nat) : Int) =
      ⟨Except.error "Athena execution exec-2 is not processed in 2 seconds.", false, 2, 1⟩ := by
  rw [wait_timeout_counts "exec-2" (fun _ => ⟨"RUNNING", none⟩) 2 (by omega)
    (by intro j hj; simp [nonTerminal])]
  rfl

/-- Witness for C3: a handle with the flag already set returns success with
zero status calls and zero sleeps. -/
theorem wait_memoized_invariant_witness :
    QueryExecution.wait ⟨"exec-3", true⟩ (fun _ => ⟨"RUNNING", none⟩) 20 =
      ⟨Except.ok (), true, 0, 0⟩ :=
  (wait_memoized_invariant ⟨"exec-3", true⟩ (fun _ => ⟨"RUNNING", none⟩) 20).2 rfl

/-- Witness for C4: a first-poll FAILED status with no reason field yields
the failure message with the generic placeholder. -/
theorem wait_failed_reason_witness :
    QueryExecution.wait ⟨"exec-4", false⟩ (fun _ => ⟨"FAILED", none⟩) ((1 : Nat) : Int) =
      ⟨Except.error "Athena execution exec-4 is failed. No reason is given.", false, 1, 0⟩ := by
  rw [wait_failed_reason "exec-4" (fun _ => ⟨"FAILED", none⟩) 1 1 (by omega) (by omega)
    (fun j hj => absurd hj (by omega)) rfl]
  rfl

/-- Witness for C5: a first-poll CANCELLED status with a reason yields the
cancellation message, which differs from the failure message. -/
theorem wait_cancelled_distinguished_witness :
    QueryExecution.wait ⟨"exec-5", false⟩ (fun _ => ⟨"CANCELLED", some "by user"⟩) ((2 : Nat) : Int) =
      ⟨Except.error "Athena execution exec-5 is canceled. by user", false, 1, 0⟩ ∧
    canceledMsg "exec-5" "by user" ≠ failedMsg "exec-5" "by user" := by
  have h := wait_cancelled_distinguished "exec-5" (fun _ => ⟨"CANCELLED", some "by user"⟩) 2 1
    (by omega) (by omega) (fun j hj => absurd hj (by omega)) rfl
  exact ⟨by rw [h.1]; rfl, h.2 "by user"⟩

/-- Witness for C6: after a failed wait the flag is still false and a second
wait against a fresh service performs at least one status call. -/
theorem wait_failure_not_memoized_witness :
    (QueryExecution.wait ⟨"exec-6", false⟩ (fun _ => ⟨"FAILED", none⟩) 1).waited = false ∧
    1 ≤ (QueryExecution.wait
      ⟨"exec-6", (QueryExecution.wait ⟨"exec-6", false⟩ (fun _ => ⟨"FAILED", none⟩) 1).waited⟩
      (fun _ => ⟨"RUNNING", none⟩) 3).statusCalls := by
  have h := wait_failure_not_memoized ⟨"exec-6", false⟩ (fun _ => ⟨"FAILED", none⟩) 1
    "Athena execution exec-6 is failed. No reason is given." rfl
  exact ⟨h.1, h.2.2 (fun _ => ⟨"RUNNING", none⟩) 3 (by omega)⟩

/-- Witness for C10: timeout -2 on an unconfirmed handle makes no call and
raises the timeout message naming -2. -/
theorem wait_nonpositive_timeout_witness :
    QueryExecution.wait ⟨"exec-10", false⟩ (fun _ => ⟨"RUNNING", none⟩) (-2) =
      ⟨Except.error "Athena execution exec-10 is not processed in -2 seconds.", false, 0, 0⟩ := by
  rw [wait_nonpositive_timeout ⟨"exec-10", false⟩ (fun _ => ⟨"RUNNING", none⟩) (-2) rfl
    (by omega)]
  rfl

end Athena
